import Mathlib

/-!
Verification of the BSM-Calculator repository: a shallow embedding of the
Black-Scholes-Merton pricing engine (`bsm_model.py`) and of the parameter
sweep engine (`app.py` / `gui_view.py`), together with theorems settling the
specification claims. Floating-point arithmetic is modelled over the real
numbers.
-/

open MeasureTheory

/-- Standard normal probability density, the model of `scipy.stats.norm.pdf`:
`n(x) = exp(-x^2/2) / sqrt(2*pi)`. -/
noncomputable def normPdf (x : ℝ) : ℝ :=
  Real.exp (-(x ^ 2) / 2) / Real.sqrt (2 * Real.pi)

/-- Standard normal cumulative distribution function, the model of
`scipy.stats.norm.cdf`: the integral of the density over `(-∞, x]`. -/
noncomputable def normCdf (x : ℝ) : ℝ :=
  ∫ t in Set.Iic x, normPdf t

lemma normPdf_nonneg (x : ℝ) : 0 ≤ normPdf x :=
  div_nonneg (Real.exp_nonneg _) (Real.sqrt_nonneg _)

lemma normPdf_neg (x : ℝ) : normPdf (-x) = normPdf x := by
  simp [normPdf, neg_sq]

lemma normPdf_eq_gauss (x : ℝ) :
    normPdf x = Real.exp (-(1 / 2 : ℝ) * x ^ 2) * (Real.sqrt (2 * Real.pi))⁻¹ := by
  have h : -(x ^ 2) / 2 = -(1 / 2 : ℝ) * x ^ 2 := by ring
  rw [normPdf, h, div_eq_mul_inv]

lemma integrable_normPdf : Integrable normPdf := by
  have h : normPdf = fun x => Real.exp (-(1 / 2 : ℝ) * x ^ 2) * (Real.sqrt (2 * Real.pi))⁻¹ := by
    funext x
    exact normPdf_eq_gauss x
  rw [h]
  exact (integrable_exp_neg_mul_sq (by norm_num)).mul_const _

lemma integral_normPdf : (∫ x, normPdf x) = 1 := by
  have h : (∫ x, normPdf x)
      = (∫ x, Real.exp (-(1 / 2 : ℝ) * x ^ 2)) * (Real.sqrt (2 * Real.pi))⁻¹ := by
    rw [← integral_mul_right]
    congr 1
    funext x
    exact normPdf_eq_gauss x
  rw [h, integral_gaussian]
  have h2 : Real.pi / (1 / 2 : ℝ) = 2 * Real.pi := by ring
  rw [h2]
  have hpos : (0 : ℝ) < Real.sqrt (2 * Real.pi) :=
    Real.sqrt_pos.mpr (by positivity)
  field_simp

lemma normCdf_neg_eq (x : ℝ) : normCdf (-x) = ∫ t in Set.Ioi x, normPdf t := by
  have h : (∫ t in Set.Iic (-x), normPdf t) = ∫ t in Set.Iic (-x), normPdf (-t) := by
    simp only [normPdf_neg]
  rw [normCdf, h, integral_comp_neg_Iic, neg_neg]

/-- The reflection identity `N(x) + N(-x) = 1` for the standard normal CDF. -/
lemma normCdf_add_neg (x : ℝ) : normCdf x + normCdf (-x) = 1 := by
  rw [normCdf_neg_eq, normCdf,
    intervalIntegral.integral_Iic_add_Ioi integrable_normPdf.integrableOn
      integrable_normPdf.integrableOn,
    integral_normPdf]

/-- Raw constructor arguments of `BlackScholes.__init__` in `bsm_model.py`:
spot, strike, days to expiry, and the three percentage-scaled rates. -/
@[ext]
structure BSInputs where
  S : ℝ
  K : ℝ
  T_days : ℝ
  r_pct : ℝ
  sigma_pct : ℝ
  q_pct : ℝ

/-- Year fraction `self.T = float(T_days) / 365.0` from `BlackScholes.__init__`. -/
noncomputable def BSInputs.T (i : BSInputs) : ℝ := i.T_days / 365

/-- Decimal rate `self.r = float(r_pct) / 100.0` from `BlackScholes.__init__`. -/
noncomputable def BSInputs.r (i : BSInputs) : ℝ := i.r_pct / 100

/-- Decimal volatility `self.sigma = float(sigma_pct) / 100.0` from `BlackScholes.__init__`. -/
noncomputable def BSInputs.sigma (i : BSInputs) : ℝ := i.sigma_pct / 100

/-- Decimal dividend yield `self.q = float(q_pct) / 100.0` from `BlackScholes.__init__`. -/
noncomputable def BSInputs.q (i : BSInputs) : ℝ := i.q_pct / 100

/-- Output dictionary of `BlackScholes.calculate_all`: the ten metric fields. -/
structure BSResults where
  call_price : ℝ
  put_price : ℝ
  call_delta : ℝ
  put_delta : ℝ
  gamma : ℝ
  vega : ℝ
  call_theta : ℝ
  put_theta : ℝ
  call_rho : ℝ
  put_rho : ℝ

/-- The `d1` formula from `BlackScholes._d1_d2` (general branch, line 34). -/
noncomputable def d1 (i : BSInputs) : ℝ :=
  (Real.log (i.S / i.K) + (i.r - i.q + 0.5 * i.sigma ^ 2) * i.T) / (i.sigma * Real.sqrt i.T)

/-- The `d2` formula from `BlackScholes._d1_d2` (general branch, line 35). -/
noncomputable def d2 (i : BSInputs) : ℝ := d1 i - i.sigma * Real.sqrt i.T

/-- Model of `BlackScholes._d1_d2`: returns `None, None` when `T <= 1e-9` or
`sigma <= 1e-9`, else the pair `(d1, d2)`. -/
noncomputable def d1_d2 (i : BSInputs) : Option (ℝ × ℝ) :=
  if i.T ≤ 1e-9 ∨ i.sigma ≤ 1e-9 then none
  else some (d1 i, d2 i)

/-- Model of `BlackScholes.calculate_all` from `bsm_model.py` (lines 38-114):
the `T <= 1e-9` expiry branch, the `d1 is None` zero-volatility branch, and
the general closed-form branch, over a result record whose fields default
to `0.0` exactly as the Python `results` dictionary does. -/
noncomputable def calculate_all (i : BSInputs) : BSResults :=
  if i.T ≤ 1e-9 then
    { call_price := max 0 (i.S - i.K)
      put_price := max 0 (i.K - i.S)
      call_delta := if i.S > i.K then 1 else if i.S < i.K then 0 else 0
      put_delta := if i.S > i.K then 0 else if i.S < i.K then -1 else 0
      gamma := 0, vega := 0, call_theta := 0, put_theta := 0
      call_rho := 0, put_rho := 0 }
  else
    match d1_d2 i with
    | none =>
      { call_price := max 0 (i.S - i.K)
        put_price := max 0 (i.K - i.S)
        call_delta := 0, put_delta := 0
        gamma := 0, vega := 0, call_theta := 0, put_theta := 0
        call_rho := 0, put_rho := 0 }
    | some (d1v, d2v) =>
      let sqrt_T := Real.sqrt i.T
      let exp_mqT := Real.exp (-i.q * i.T)
      let exp_mrT := Real.exp (-i.r * i.T)
      let N_d1 := normCdf d1v
      let N_d2 := normCdf d2v
      let N_neg_d1 := normCdf (-d1v)
      let N_neg_d2 := normCdf (-d2v)
      let n_d1 := normPdf d1v
      let term1 := -(i.S * exp_mqT * n_d1 * i.sigma) / (2 * sqrt_T)
      let call_theta_yr := term1 - i.r * i.K * exp_mrT * N_d2 + i.q * i.S * exp_mqT * N_d1
      let put_theta_yr := term1 + i.r * i.K * exp_mrT * N_neg_d2 - i.q * i.S * exp_mqT * N_neg_d1
      { call_price := i.S * exp_mqT * N_d1 - i.K * exp_mrT * N_d2
        put_price := i.K * exp_mrT * N_neg_d2 - i.S * exp_mqT * N_neg_d1
        call_delta := exp_mqT * N_d1
        put_delta := exp_mqT * (N_d1 - 1)
        gamma := (exp_mqT * n_d1) / (i.S * i.sigma * sqrt_T)
        vega := (i.S * exp_mqT * sqrt_T * n_d1) / 100
        call_theta := call_theta_yr / 365
        put_theta := put_theta_yr / 365
        call_rho := (i.K * i.T * exp_mrT * N_d2) / 100
        put_rho := (-(i.K * i.T * exp_mrT * N_neg_d2)) / 100 }

/-- Branch reduction: when `T <= 1e-9`, `calculate_all` returns the intrinsic
prices with the expiry step-function deltas (lines 52-63 of `bsm_model.py`). -/
lemma calculate_all_expiry (i : BSInputs) (hT : i.T ≤ 1e-9) :
    calculate_all i =
      { call_price := max 0 (i.S - i.K)
        put_price := max 0 (i.K - i.S)
        call_delta := if i.S > i.K then 1 else if i.S < i.K then 0 else 0
        put_delta := if i.S > i.K then 0 else if i.S < i.K then -1 else 0
        gamma := 0, vega := 0, call_theta := 0, put_theta := 0
        call_rho := 0, put_rho := 0 } := by
  rw [calculate_all, if_pos hT]

/-- Branch reduction: when `T > 1e-9` but `sigma <= 1e-9`, `_d1_d2` returns
`None` and `calculate_all` returns the intrinsic prices with all other
fields at the zero default (lines 65-69 of `bsm_model.py`). -/
lemma calculate_all_zero_vol (i : BSInputs) (hT : 1e-9 < i.T) (hs : i.sigma ≤ 1e-9) :
    calculate_all i =
      { call_price := max 0 (i.S - i.K)
        put_price := max 0 (i.K - i.S)
        call_delta := 0, put_delta := 0
        gamma := 0, vega := 0, call_theta := 0, put_theta := 0
        call_rho := 0, put_rho := 0 } := by
  have hd : d1_d2 i = none := by
    rw [d1_d2, if_pos (Or.inr hs)]
  rw [calculate_all, if_neg (not_le.mpr hT), hd]

/-- Branch reduction: when `T > 1e-9` and `sigma > 1e-9`, `calculate_all`
takes the general closed-form branch (lines 71-114 of `bsm_model.py`). -/
lemma calculate_all_general (i : BSInputs) (hT : 1e-9 < i.T) (hs : 1e-9 < i.sigma) :
    calculate_all i =
      { call_price :=
          i.S * Real.exp (-i.q * i.T) * normCdf (d1 i)
            - i.K * Real.exp (-i.r * i.T) * normCdf (d2 i)
        put_price :=
          i.K * Real.exp (-i.r * i.T) * normCdf (-d2 i)
            - i.S * Real.exp (-i.q * i.T) * normCdf (-d1 i)
        call_delta := Real.exp (-i.q * i.T) * normCdf (d1 i)
        put_delta := Real.exp (-i.q * i.T) * (normCdf (d1 i) - 1)
        gamma :=
          (Real.exp (-i.q * i.T) * normPdf (d1 i)) / (i.S * i.sigma * Real.sqrt i.T)
        vega := (i.S * Real.exp (-i.q * i.T) * Real.sqrt i.T * normPdf (d1 i)) / 100
        call_theta :=
          (-(i.S * Real.exp (-i.q * i.T) * normPdf (d1 i) * i.sigma) / (2 * Real.sqrt i.T)
            - i.r * i.K * Real.exp (-i.r * i.T) * normCdf (d2 i)
            + i.q * i.S * Real.exp (-i.q * i.T) * normCdf (d1 i)) / 365
        put_theta :=
          (-(i.S * Real.exp (-i.q * i.T) * normPdf (d1 i) * i.sigma) / (2 * Real.sqrt i.T)
            + i.r * i.K * Real.exp (-i.r * i.T) * normCdf (-d2 i)
            - i.q * i.S * Real.exp (-i.q * i.T) * normCdf (-d1 i)) / 365
        call_rho := (i.K * i.T * Real.exp (-i.r * i.T) * normCdf (d2 i)) / 100
        put_rho := (-(i.K * i.T * Real.exp (-i.r * i.T) * normCdf (-d2 i))) / 100 } := by
  have hd : d1_d2 i = some (d1 i, d2 i) := by
    rw [d1_d2, if_neg]
    push_neg
    exact ⟨hT, hs⟩
  rw [calculate_all, if_neg (not_le.mpr hT), hd]

/-- Error outcomes of the sweep pipeline: `InvalidRangeError` is the
`"Steps must be > 1"` rejection in `gui_view.get_analysis_inputs` (line 231)
and `ConfigurationError` is the `"X-Axis and Z-Axis variables must be
different"` rejection in `app.run_analysis` (lines 80-82). -/
inductive SweepError where
  | invalidRangeError : SweepError
  | configurationError : SweepError
deriving DecidableEq

/-- Graph settings assembled by `gui_view.get_analysis_inputs` (lines 220-229):
the target-metric label, the X-axis label, range and step count, and the
Z-axis label, series start and increment. -/
structure SweepParams where
  y_var : String
  x_var : String
  x_start : ℝ
  x_end : ℝ
  x_steps : ℤ
  z_var : String
  z_start : ℝ
  z_inc : ℝ

/-- The `var_map` dictionary of `OptionAnalyticsApp.__init__` (lines 20-25):
display labels to `BlackScholes` parameter names, `None` when absent. -/
def varMap (s : String) : Option String :=
  if s = "Spot Price" then some "S"
  else if s = "Volatility" then some "sigma"
  else if s = "Time (Days)" then some "T"
  else if s = "Risk-Free Rate" then some "r"
  else none

/-- The `metric_map` dictionary of `OptionAnalyticsApp.__init__` (lines 28-37):
metric display labels to result-dictionary keys, `None` when absent. -/
def metricMap (s : String) : Option String :=
  if s = "Call Price" then some "call_price"
  else if s = "Put Price" then some "put_price"
  else if s = "Call Delta" then some "call_delta"
  else if s = "Put Delta" then some "put_delta"
  else if s = "Gamma" then some "gamma"
  else if s = "Vega" then some "vega"
  else if s = "Theta" then some "call_theta"
  else if s = "Rho" then some "call_rho"
  else none

/-- Keyed lookup into the result dictionary with default `0.0`, the model of
`res.get(key, 0.0)` in `app.run_analysis` (line 117). -/
def resGet (res : BSResults) (k : String) : ℝ :=
  if k = "call_price" then res.call_price
  else if k = "put_price" then res.put_price
  else if k = "call_delta" then res.call_delta
  else if k = "put_delta" then res.put_delta
  else if k = "gamma" then res.gamma
  else if k = "vega" then res.vega
  else if k = "call_theta" then res.call_theta
  else if k = "put_theta" then res.put_theta
  else if k = "call_rho" then res.call_rho
  else if k = "put_rho" then res.put_rho
  else 0

/-- Metric extraction for one sweep cell: `res.get(y_metric_key, 0.0)` where
`y_metric_key` is `metric_map.get(params['y_var'])` and may be `None`. -/
def extractMetric (res : BSResults) (key : Option String) : ℝ :=
  match key with
  | none => 0
  | some k => resGet res k

/-- Dictionary override `current_inputs[name] = v` in `app.run_analysis`
(lines 99-100), restricted to the six keys the `BlackScholes` constructor
reads; assigning an unknown or `None` key leaves those six reads unchanged. -/
def overrideVar (i : BSInputs) (name : Option String) (v : ℝ) : BSInputs :=
  match name with
  | none => i
  | some n =>
    if n = "S" then { i with S := v }
    else if n = "K" then { i with K := v }
    else if n = "T" then { i with T_days := v }
    else if n = "r" then { i with r_pct := v }
    else if n = "sigma" then { i with sigma_pct := v }
    else if n = "q" then { i with q_pct := v }
    else i

/-- Model of `np.linspace(a, b, n)` as used with `n >= 2`: the points
`a + j * (b - a) / (n - 1)` for `j = 0 .. n-1` (exact over the reals, with
the endpoint `b` attained at `j = n - 1`). -/
noncomputable def linspace (a b : ℝ) (n : ℕ) : List ℝ :=
  (List.range n).map (fun (j : ℕ) => a + (j : ℝ) * ((b - a) / ((n : ℝ) - 1)))

/-- The `x_values` vector of `app.run_analysis` (line 85). -/
noncomputable def sweep_x_values (p : SweepParams) : List ℝ :=
  linspace p.x_start p.x_end p.x_steps.toNat

/-- The `z_values` list of `app.run_analysis` (line 86):
`[z_start + i * z_inc for i in range(5)]`. -/
noncomputable def sweep_z_values (p : SweepParams) : List ℝ :=
  (List.range 5).map (fun (idx : ℕ) => p.z_start + (idx : ℝ) * p.z_inc)

/-- The `y_matrix` nested loop of `app.run_analysis` (lines 89-123),
parameterized by the pricing engine invoked per cell: for each series value
`z` (outer) and grid value `x` (inner), copy the base inputs, override the
X-variable field with `x` and then the Z-variable field with `z`, evaluate,
and extract the target metric. -/
noncomputable def sweep_matrix (engine : BSInputs → BSResults) (base : BSInputs)
    (p : SweepParams) : List (List ℝ) :=
  (sweep_z_values p).map (fun z =>
    (sweep_x_values p).map (fun x =>
      extractMetric
        (engine (overrideVar (overrideVar base (varMap p.x_var) x) (varMap p.z_var) z))
        (metricMap p.y_var)))

/-- The sweep pipeline driven by the "Generate Graph" button, parameterized
by the pricing engine: `gui_view.get_analysis_inputs` first rejects
`x_steps <= 1` (line 231), then `app.run_analysis` rejects coinciding mapped
X/Z variables (lines 80-82), and otherwise the grid is generated and filled. -/
noncomputable def run_sweepWith (engine : BSInputs → BSResults) (base : BSInputs)
    (p : SweepParams) : Except SweepError (List ℝ × List ℝ × List (List ℝ)) :=
  if p.x_steps ≤ 1 then Except.error SweepError.invalidRangeError
  else if varMap p.x_var = varMap p.z_var then Except.error SweepError.configurationError
  else Except.ok (sweep_x_values p, sweep_z_values p, sweep_matrix engine base p)

/-- The sweep pipeline with the actual pricing engine `calculate_all`. -/
noncomputable def run_sweep (base : BSInputs) (p : SweepParams) :
    Except SweepError (List ℝ × List ℝ × List (List ℝ)) :=
  run_sweepWith calculate_all base p

/-- Step-function deltas of the expiry branch, shared by several claims. -/
lemma expiry_deltas (i : BSInputs) (hT : i.T ≤ 1e-9) :
    (i.K < i.S → (calculate_all i).call_delta = 1 ∧ (calculate_all i).put_delta = 0) ∧
    (i.S < i.K → (calculate_all i).call_delta = 0 ∧ (calculate_all i).put_delta = -1) ∧
    (i.S = i.K → (calculate_all i).call_delta = 0 ∧ (calculate_all i).put_delta = 0) := by
  rw [calculate_all_expiry i hT]
  dsimp only
  refine ⟨fun h => ?_, fun h => ?_, fun h => ?_⟩
  · exact ⟨by rw [if_pos h], by rw [if_pos h]⟩
  · have hn : ¬ i.K < i.S := lt_asymm h
    exact ⟨by rw [if_neg hn, if_pos h], by rw [if_neg hn, if_pos h]⟩
  · have hn : ¬ i.K < i.S := by rw [h]; exact lt_irrefl _
    have hn2 : ¬ i.S < i.K := by rw [h]; exact lt_irrefl _
    exact ⟨by rw [if_neg hn, if_neg hn2], by rw [if_neg hn, if_neg hn2]⟩

/-- The `d1` formula exactly as written in the specification. -/
noncomputable def specd1 (i : BSInputs) : ℝ :=
  (Real.log (i.S / i.K) + (i.r - i.q + 0.5 * i.sigma ^ 2) * i.T) / (i.sigma * Real.sqrt i.T)

/-- The `d2` formula exactly as written in the specification. -/
noncomputable def specd2 (i : BSInputs) : ℝ := specd1 i - i.sigma * Real.sqrt i.T

/-- The ten Black-Scholes-Merton closed forms claimed for the general branch,
written from the specification text: prices from the discounted CDF terms,
deltas, gamma, per-percentage-point vega, daily thetas, and
per-percentage-point rhos. -/
def BSMClosedForms (i : BSInputs) : Prop :=
  (calculate_all i).call_price
    = i.S * Real.exp (-i.q * i.T) * normCdf (specd1 i)
      - i.K * Real.exp (-i.r * i.T) * normCdf (specd2 i) ∧
  (calculate_all i).put_price
    = i.K * Real.exp (-i.r * i.T) * normCdf (-specd2 i)
      - i.S * Real.exp (-i.q * i.T) * normCdf (-specd1 i) ∧
  (calculate_all i).call_delta = Real.exp (-i.q * i.T) * normCdf (specd1 i) ∧
  (calculate_all i).put_delta = Real.exp (-i.q * i.T) * (normCdf (specd1 i) - 1) ∧
  (calculate_all i).gamma
    = (Real.exp (-i.q * i.T) * normPdf (specd1 i)) / (i.S * i.sigma * Real.sqrt i.T) ∧
  (calculate_all i).vega
    = (i.S * Real.exp (-i.q * i.T) * Real.sqrt i.T * normPdf (specd1 i)) / 100 ∧
  (calculate_all i).call_theta
    = (-(i.S * Real.exp (-i.q * i.T) * normPdf (specd1 i) * i.sigma) / (2 * Real.sqrt i.T)
        - i.r * i.K * Real.exp (-i.r * i.T) * normCdf (specd2 i)
        + i.q * i.S * Real.exp (-i.q * i.T) * normCdf (specd1 i)) / 365 ∧
  (calculate_all i).put_theta
    = (-(i.S * Real.exp (-i.q * i.T) * normPdf (specd1 i) * i.sigma) / (2 * Real.sqrt i.T)
        + i.r * i.K * Real.exp (-i.r * i.T) * normCdf (-specd2 i)
        - i.q * i.S * Real.exp (-i.q * i.T) * normCdf (-specd1 i)) / 365 ∧
  (calculate_all i).call_rho
    = (i.K * i.T * Real.exp (-i.r * i.T) * normCdf (specd2 i)) / 100 ∧
  (calculate_all i).put_rho
    = (-(i.K * i.T * Real.exp (-i.r * i.T) * normCdf (-specd2 i))) / 100

/-- C1: for finite inputs with `S > 0`, `K > 0`, `T > 1e-9` and
`sigma > 1e-9`, `calculate_all` returns all ten fields computed by the
Black-Scholes-Merton closed forms of the spec. -/
theorem bsm_general_closed_forms (i : BSInputs) (hS : 0 < i.S) (hK : 0 < i.K)
    (hT : 1e-9 < i.T) (hs : 1e-9 < i.sigma) : BSMClosedForms i := by
  unfold BSMClosedForms
  rw [calculate_all_general i hT hs]
  exact ⟨rfl, rfl, rfl, rfl, rfl, rfl, rfl, rfl, rfl, rfl⟩

/-- Witness for C1 at `S=100, K=100, T=365d, r=5, sigma=20, q=0`. -/
theorem bsm_general_closed_forms_witness : BSMClosedForms ⟨100, 100, 365, 5, 20, 0⟩ :=
  bsm_general_closed_forms ⟨100, 100, 365, 5, 20, 0⟩ (by norm_num) (by norm_num)
    (by norm_num [BSInputs.T]) (by norm_num [BSInputs.sigma])

/-- Behaviour claimed at (or below the threshold of) expiry: intrinsic
prices, step-function deltas, and zero defaults everywhere else. -/
def ExpiryBehavior (i : BSInputs) : Prop :=
  (calculate_all i).call_price = max 0 (i.S - i.K) ∧
  (calculate_all i).put_price = max 0 (i.K - i.S) ∧
  (i.K < i.S → (calculate_all i).call_delta = 1 ∧ (calculate_all i).put_delta = 0) ∧
  (i.S < i.K → (calculate_all i).call_delta = 0 ∧ (calculate_all i).put_delta = -1) ∧
  (i.S = i.K → (calculate_all i).call_delta = 0 ∧ (calculate_all i).put_delta = 0) ∧
  (calculate_all i).gamma = 0 ∧
  (calculate_all i).vega = 0 ∧
  (calculate_all i).call_theta = 0 ∧
  (calculate_all i).put_theta = 0 ∧
  (calculate_all i).call_rho = 0 ∧
  (calculate_all i).put_rho = 0

/-- C2: when `T = time_to_expiry_days/365 <= 1e-9`, `calculate_all` skips the
Black-Scholes algebra and returns intrinsic prices, step-function deltas, and
zero defaults for gamma, vega, thetas and rhos. -/
theorem expiry_branch (i : BSInputs) (hT : i.T ≤ 1e-9) : ExpiryBehavior i := by
  obtain ⟨hgt, hlt, heq⟩ := expiry_deltas i hT
  refine ⟨?_, ?_, hgt, hlt, heq, ?_, ?_, ?_, ?_, ?_, ?_⟩ <;>
    rw [calculate_all_expiry i hT]

/-- Witness for C2 at `S=100, K=90, T=0`. -/
theorem expiry_branch_witness : ExpiryBehavior ⟨100, 90, 0, 5, 20, 0⟩ :=
  expiry_branch ⟨100, 90, 0, 5, 20, 0⟩ (by norm_num [BSInputs.T])

/-- Behaviour claimed for positive time but zero/near-zero volatility:
intrinsic prices and zero defaults for every other field. -/
def ZeroVolBehavior (i : BSInputs) : Prop :=
  (calculate_all i).call_price = max 0 (i.S - i.K) ∧
  (calculate_all i).put_price = max 0 (i.K - i.S) ∧
  (calculate_all i).call_delta = 0 ∧
  (calculate_all i).put_delta = 0 ∧
  (calculate_all i).gamma = 0 ∧
  (calculate_all i).vega = 0 ∧
  (calculate_all i).call_theta = 0 ∧
  (calculate_all i).put_theta = 0 ∧
  (calculate_all i).call_rho = 0 ∧
  (calculate_all i).put_rho = 0

/-- C3: when `T > 1e-9` but `sigma = volatility_pct/100 <= 1e-9`,
`calculate_all` returns the intrinsic prices and leaves every other field at
the `0.0` default. -/
theorem zero_vol_branch (i : BSInputs) (hT : 1e-9 < i.T) (hs : i.sigma ≤ 1e-9) :
    ZeroVolBehavior i := by
  unfold ZeroVolBehavior
  rw [calculate_all_zero_vol i hT hs]
  exact ⟨rfl, rfl, rfl, rfl, rfl, rfl, rfl, rfl, rfl, rfl⟩

/-- Witness for C3 at `S=100, K=90, T=365d, sigma=0`. -/
theorem zero_vol_branch_witness : ZeroVolBehavior ⟨100, 90, 365, 5, 0, 0⟩ :=
  zero_vol_branch ⟨100, 90, 365, 5, 0, 0⟩ (by norm_num [BSInputs.T])
    (by norm_num [BSInputs.sigma])

/-- C4: put-call parity on the non-degenerate branch, exactly and hence
within the claimed `1e-6` tolerance:
`call - put = S*exp(-qT) - K*exp(-rT)`. -/
theorem put_call_parity (i : BSInputs) (hS : 0 < i.S) (hK : 0 < i.K)
    (hT : 1e-9 < i.T) (hs : 1e-9 < i.sigma) :
    (calculate_all i).call_price - (calculate_all i).put_price
      = i.S * Real.exp (-i.q * i.T) - i.K * Real.exp (-i.r * i.T) ∧
    |(calculate_all i).call_price - (calculate_all i).put_price
      - (i.S * Real.exp (-i.q * i.T) - i.K * Real.exp (-i.r * i.T))| ≤ 1e-6 := by
  have h1 := normCdf_add_neg (d1 i)
  have h2 := normCdf_add_neg (d2 i)
  have key : (calculate_all i).call_price - (calculate_all i).put_price
      = i.S * Real.exp (-i.q * i.T) - i.K * Real.exp (-i.r * i.T) := by
    rw [calculate_all_general i hT hs]
    dsimp only
    linear_combination i.S * Real.exp (-i.q * i.T) * h1 - i.K * Real.exp (-i.r * i.T) * h2
  refine ⟨key, ?_⟩
  rw [key, sub_self, abs_zero]
  norm_num

/-- Witness for C4 at `S=100, K=100, T=365d, r=5, sigma=20, q=0`. -/
theorem put_call_parity_witness :
    (calculate_all ⟨100, 100, 365, 5, 20, 0⟩).call_price
        - (calculate_all ⟨100, 100, 365, 5, 20, 0⟩).put_price
      = (100 : ℝ) * Real.exp (-(BSInputs.q ⟨100, 100, 365, 5, 20, 0⟩)
          * BSInputs.T ⟨100, 100, 365, 5, 20, 0⟩)
        - 100 * Real.exp (-(BSInputs.r ⟨100, 100, 365, 5, 20, 0⟩)
          * BSInputs.T ⟨100, 100, 365, 5, 20, 0⟩) :=
  (put_call_parity ⟨100, 100, 365, 5, 20, 0⟩ (by norm_num) (by norm_num)
    (by norm_num [BSInputs.T]) (by norm_num [BSInputs.sigma])).1

/-- C5: gamma and vega are nonnegative for every valid input, in every
branch of `calculate_all`. -/
theorem gamma_vega_nonneg (i : BSInputs) (hS : 0 < i.S) (hK : 0 < i.K) :
    0 ≤ (calculate_all i).gamma ∧ 0 ≤ (calculate_all i).vega := by
  by_cases hT : i.T ≤ 1e-9
  · rw [calculate_all_expiry i hT]
    exact ⟨le_refl 0, le_refl 0⟩
  · push_neg at hT
    by_cases hs : i.sigma ≤ 1e-9
    · rw [calculate_all_zero_vol i hT hs]
      exact ⟨le_refl 0, le_refl 0⟩
    · push_neg at hs
      rw [calculate_all_general i hT hs]
      have hs0 : 0 < i.sigma := lt_trans (by norm_num) hs
      have hT0 : 0 < i.T := lt_trans (by norm_num) hT
      have hsq : 0 < Real.sqrt i.T := Real.sqrt_pos.mpr hT0
      constructor
      · dsimp only
        exact div_nonneg (mul_nonneg (Real.exp_nonneg _) (normPdf_nonneg _))
          (le_of_lt (by positivity))
      · dsimp only
        exact div_nonneg
          (mul_nonneg (mul_nonneg (mul_nonneg hS.le (Real.exp_nonneg _))
            (Real.sqrt_nonneg _)) (normPdf_nonneg _)) (by norm_num)

/-- Witness for C5 at `S=100, K=100, T=365d, r=5, sigma=20, q=0`. -/
theorem gamma_vega_nonneg_witness :
    0 ≤ (calculate_all ⟨100, 100, 365, 5, 20, 0⟩).gamma ∧
    0 ≤ (calculate_all ⟨100, 100, 365, 5, 20, 0⟩).vega :=
  gamma_vega_nonneg ⟨100, 100, 365, 5, 20, 0⟩ (by norm_num) (by norm_num)

/-- C10 counterexample: at `S=2, K=1, T_days=-1` the degenerate branch is
taken but `call_delta` is the step value `1.0`, not the claimed `0.0`
default. -/
theorem degenerate_zero_fields_counterexample :
    BSInputs.T_days ⟨2, 1, -1, 0, 20, 0⟩ ≤ 0 ∧
    (calculate_all ⟨2, 1, -1, 0, 20, 0⟩).call_delta ≠ 0 := by
  constructor
  · norm_num
  · rw [calculate_all_expiry ⟨2, 1, -1, 0, 20, 0⟩ (by norm_num [BSInputs.T])]
    dsimp only
    norm_num

/-- Amended C10 behaviour: for non-positive raw time or volatility the
degenerate branches are taken, `_d1_d2` returns `None` (so the
general-branch logarithm and square root are never reached), the prices are
the intrinsic values, gamma/vega/thetas/rhos stay at the `0.0` default, and
the deltas are the expiry step values when `T <= 1e-9` and `0.0` otherwise. -/
def DegenerateSafe (i : BSInputs) : Prop :=
  d1_d2 i = none ∧
  (calculate_all i).call_price = max 0 (i.S - i.K) ∧
  (calculate_all i).put_price = max 0 (i.K - i.S) ∧
  (calculate_all i).gamma = 0 ∧
  (calculate_all i).vega = 0 ∧
  (calculate_all i).call_theta = 0 ∧
  (calculate_all i).put_theta = 0 ∧
  (calculate_all i).call_rho = 0 ∧
  (calculate_all i).put_rho = 0 ∧
  (i.T ≤ 1e-9 →
    (i.K < i.S → (calculate_all i).call_delta = 1 ∧ (calculate_all i).put_delta = 0) ∧
    (i.S < i.K → (calculate_all i).call_delta = 0 ∧ (calculate_all i).put_delta = -1) ∧
    (i.S = i.K → (calculate_all i).call_delta = 0 ∧ (calculate_all i).put_delta = 0)) ∧
  (1e-9 < i.T → (calculate_all i).call_delta = 0 ∧ (calculate_all i).put_delta = 0)

/-- C10 (amended): any non-positive `time_to_expiry_days` or `volatility_pct`
falls under the `1e-9` thresholds, so a degenerate branch is taken and the
result is the intrinsic-value output described by `DegenerateSafe`. -/
theorem degenerate_inputs_safe (i : BSInputs) (hS : 0 < i.S) (hK : 0 < i.K)
    (h : i.T_days ≤ 0 ∨ i.sigma_pct ≤ 0) : DegenerateSafe i := by
  by_cases hT : i.T ≤ 1e-9
  · refine ⟨by rw [d1_d2, if_pos (Or.inl hT)], ?_, ?_, ?_, ?_, ?_, ?_, ?_, ?_,
      fun _ => expiry_deltas i hT, fun hT' => absurd hT (not_le.mpr hT')⟩ <;>
      rw [calculate_all_expiry i hT]
  · push_neg at hT
    have hs : i.sigma ≤ 1e-9 := by
      rcases h with hd | hv
      · exfalso
        have : i.T ≤ 0 := by
          rw [BSInputs.T]
          linarith
        linarith
      · rw [BSInputs.sigma]
        linarith
    refine ⟨by rw [d1_d2, if_pos (Or.inr hs)], ?_, ?_, ?_, ?_, ?_, ?_, ?_, ?_,
      fun hT' => absurd hT' (not_le.mpr hT), fun _ => ?_⟩ <;>
      rw [calculate_all_zero_vol i hT hs]
    exact ⟨rfl, rfl⟩

/-- Witness for amended C10 at `S=100, K=90, T_days=-1`. -/
theorem degenerate_inputs_safe_witness : DegenerateSafe ⟨100, 90, -1, 5, 20, 0⟩ :=
  degenerate_inputs_safe ⟨100, 90, -1, 5, 20, 0⟩ (by norm_num) (by norm_num)
    (Or.inl (by norm_num))

/-- Field view of `overrideVar`: the spot read by the constructor. -/
lemma overrideVar_S (i : BSInputs) (name : Option String) (v : ℝ) :
    (overrideVar i name v).S = if name = some "S" then v else i.S := by
  rcases name with _ | s
  · rfl
  · simp only [overrideVar]
    split_ifs <;> simp_all

/-- Field view of `overrideVar`: the strike read by the constructor. -/
lemma overrideVar_K (i : BSInputs) (name : Option String) (v : ℝ) :
    (overrideVar i name v).K = if name = some "K" then v else i.K := by
  rcases name with _ | s
  · rfl
  · simp only [overrideVar]
    split_ifs <;> simp_all

/-- Field view of `overrideVar`: the day count read by the constructor. -/
lemma overrideVar_T_days (i : BSInputs) (name : Option String) (v : ℝ) :
    (overrideVar i name v).T_days = if name = some "T" then v else i.T_days := by
  rcases name with _ | s
  · rfl
  · simp only [overrideVar]
    split_ifs <;> simp_all

/-- Field view of `overrideVar`: the rate percentage read by the constructor. -/
lemma overrideVar_r_pct (i : BSInputs) (name : Option String) (v : ℝ) :
    (overrideVar i name v).r_pct = if name = some "r" then v else i.r_pct := by
  rcases name with _ | s
  · rfl
  · simp only [overrideVar]
    split_ifs <;> simp_all

/-- Field view of `overrideVar`: the volatility percentage read by the constructor. -/
lemma overrideVar_sigma_pct (i : BSInputs) (name : Option String) (v : ℝ) :
    (overrideVar i name v).sigma_pct = if name = some "sigma" then v else i.sigma_pct := by
  rcases name with _ | s
  · rfl
  · simp only [overrideVar]
    split_ifs <;> simp_all

/-- Field view of `overrideVar`: the dividend percentage read by the constructor. -/
lemma overrideVar_q_pct (i : BSInputs) (name : Option String) (v : ℝ) :
    (overrideVar i name v).q_pct = if name = some "q" then v else i.q_pct := by
  rcases name with _ | s
  · rfl
  · simp only [overrideVar]
    split_ifs <;> simp_all

/-- Overrides of two distinct (or absent) variable names commute. -/
lemma overrideVar_comm (i : BSInputs) (n1 n2 : Option String) (v1 v2 : ℝ) (h : n1 ≠ n2) :
    overrideVar (overrideVar i n1 v1) n2 v2 = overrideVar (overrideVar i n2 v2) n1 v1 := by
  ext <;>
    simp only [overrideVar_S, overrideVar_K, overrideVar_T_days, overrideVar_r_pct,
      overrideVar_sigma_pct, overrideVar_q_pct] <;>
    split_ifs <;> simp_all

/-- Indexing a mapped range list inside its bounds. -/
lemma getD_map_range {α : Type} (f : ℕ → α) (d : α) {n j : ℕ} (hj : j < n) :
    ((List.range n).map f).getD j d = f j := by
  simp [List.getD_eq_getElem?_getD, List.getElem?_map, List.getElem?_range, hj]

/-- `var_map` is injective on the four selectable variable labels. -/
lemma varMap_inj {a b : String}
    (ha : a ∈ ["Spot Price", "Volatility", "Time (Days)", "Risk-Free Rate"])
    (hb : b ∈ ["Spot Price", "Volatility", "Time (Days)", "Risk-Free Rate"])
    (hne : a ≠ b) : varMap a ≠ varMap b := by
  fin_cases ha <;> fin_cases hb <;> simp_all [varMap]

/-- Spec-side description of one sweep matrix cell: the target metric
extracted from a direct Pricing Engine call on the base inputs with the
series variable overridden by `series_values[i]` and the independent
variable overridden by `independent_values[j]`. -/
noncomputable def sweepCellSpec (base : BSInputs) (p : SweepParams) (i j : ℕ) : ℝ :=
  extractMetric
    (calculate_all
      (overrideVar
        (overrideVar base (varMap p.z_var) (p.z_start + (i : ℝ) * p.z_inc))
        (varMap p.x_var)
        (p.x_start + (j : ℝ) * ((p.x_end - p.x_start) / ((p.x_steps.toNat : ℝ) - 1)))))
    (metricMap p.y_var)

/-- Conclusion of claim C6: the sweep succeeds, `independent_values` is the
`step_count`-point inclusive linspace, `series_values` is exactly the five
arithmetic-progression values in order, the matrix is 5 by `step_count`, and
every cell equals the direct per-cell Pricing Engine evaluation. -/
def SweepMatches (base : BSInputs) (p : SweepParams) : Prop :=
  run_sweep base p
    = Except.ok (sweep_x_values p, sweep_z_values p, sweep_matrix calculate_all base p) ∧
  (sweep_x_values p).length = p.x_steps.toNat ∧
  (∀ j : ℕ, j < p.x_steps.toNat →
    (sweep_x_values p).getD j 0
      = p.x_start + (j : ℝ) * ((p.x_end - p.x_start) / ((p.x_steps.toNat : ℝ) - 1))) ∧
  (sweep_x_values p).getD 0 0 = p.x_start ∧
  (sweep_x_values p).getD (p.x_steps.toNat - 1) 0 = p.x_end ∧
  sweep_z_values p
    = [p.z_start, p.z_start + p.z_inc, p.z_start + 2 * p.z_inc,
       p.z_start + 3 * p.z_inc, p.z_start + 4 * p.z_inc] ∧
  (sweep_matrix calculate_all base p).length = 5 ∧
  (∀ i : ℕ, i < 5 →
    ((sweep_matrix calculate_all base p).getD i []).length = p.x_steps.toNat) ∧
  (∀ i j : ℕ, i < 5 → j < p.x_steps.toNat →
    ((sweep_matrix calculate_all base p).getD i []).getD j 0 = sweepCellSpec base p i j)

/-- C6: for every valid sweep (distinct independent and series variables
among the four selectable ones, `step_count > 1`), the sweep engine output
is the linspace grid, the five series values, and a matrix that numerically
matches direct per-cell Pricing Engine calls. -/
theorem sweep_refines_pointwise (base : BSInputs) (p : SweepParams)
    (hx : p.x_var ∈ ["Spot Price", "Volatility", "Time (Days)", "Risk-Free Rate"])
    (hz : p.z_var ∈ ["Spot Price", "Volatility", "Time (Days)", "Risk-Free Rate"])
    (hne : p.x_var ≠ p.z_var) (hsteps : 1 < p.x_steps) : SweepMatches base p := by
  have hmap : varMap p.x_var ≠ varMap p.z_var := varMap_inj hx hz hne
  have hn2 : 1 < p.x_steps.toNat := Int.lt_toNat.mpr hsteps
  have hcast : (2 : ℝ) ≤ (p.x_steps.toNat : ℝ) := by
    exact_mod_cast hn2
  have hden : ((p.x_steps.toNat : ℝ) - 1) ≠ 0 := by linarith
  refine ⟨?_, ?_, ?_, ?_, ?_, ?_, ?_, ?_, ?_⟩
  · rw [run_sweep, run_sweepWith, if_neg (not_le.mpr hsteps), if_neg hmap]
  · simp [sweep_x_values, linspace]
  · intro j hj
    rw [sweep_x_values, linspace, getD_map_range _ _ hj]
  · rw [sweep_x_values, linspace, getD_map_range _ _ (by omega : 0 < p.x_steps.toNat)]
    norm_num
  · rw [sweep_x_values, linspace,
      getD_map_range _ _ (by omega : p.x_steps.toNat - 1 < p.x_steps.toNat)]
    rw [Nat.cast_sub (by omega), Nat.cast_one]
    field_simp
  · have h5 : List.range 5 = [0, 1, 2, 3, 4] := rfl
    rw [sweep_z_values, h5]
    simp [List.map]
  · simp [sweep_matrix, sweep_z_values]
  · intro i hi
    rw [sweep_matrix, sweep_z_values, List.map_map, getD_map_range _ _ hi]
    simp [sweep_x_values, linspace]
  · intro i j hi hj
    rw [sweep_matrix, sweep_z_values, List.map_map, getD_map_range _ _ hi]
    simp only [Function.comp]
    rw [sweep_x_values, linspace, List.map_map, getD_map_range _ _ hj]
    simp only [Function.comp]
    rw [sweepCellSpec, overrideVar_comm base _ _ _ _ hmap]

/-- Witness for C6: spot sweep `(50, 150, 3)` against a volatility series. -/
theorem sweep_refines_pointwise_witness :
    SweepMatches ⟨100, 100, 30, 5, 20, 0⟩
      ⟨"Call Price", "Spot Price", 50, 150, 3, "Volatility", 10, 5⟩ :=
  sweep_refines_pointwise ⟨100, 100, 30, 5, 20, 0⟩
    ⟨"Call Price", "Spot Price", 50, 150, 3, "Volatility", 10, 5⟩
    (by simp) (by simp) (by simp) (by norm_num)

/-- C7 counterexample: with coinciding X and Z variables but `x_steps = 1`,
the pipeline fails with `InvalidRangeError`, not `ConfigurationError` — the
step-count validation in `get_analysis_inputs` runs first. -/
theorem same_variable_not_always_config_error :
    SweepParams.x_var ⟨"Call Price", "Volatility", 10, 20, 1, "Volatility", 10, 5⟩
      = SweepParams.z_var ⟨"Call Price", "Volatility", 10, 20, 1, "Volatility", 10, 5⟩ ∧
    run_sweep ⟨100, 100, 30, 5, 20, 0⟩ ⟨"Call Price", "Volatility", 10, 20, 1, "Volatility", 10, 5⟩
      = Except.error SweepError.invalidRangeError ∧
    run_sweep ⟨100, 100, 30, 5, 20, 0⟩ ⟨"Call Price", "Volatility", 10, 20, 1, "Volatility", 10, 5⟩
      ≠ Except.error SweepError.configurationError := by
  refine ⟨rfl, ?_, ?_⟩ <;>
    rw [run_sweep, run_sweepWith, if_pos (by norm_num)]
  simp

/-- C7 (amended): whenever the step count passes its earlier validation
(`step_count > 1`), coinciding independent and series variables always fail
with `ConfigurationError`, before any pricing evaluation — for every engine,
with no engine call made. -/
theorem same_variable_config_error (base : BSInputs) (p : SweepParams)
    (hsteps : 1 < p.x_steps) (hvar : p.x_var = p.z_var) :
    run_sweep base p = Except.error SweepError.configurationError ∧
    ∀ engine : BSInputs → BSResults,
      run_sweepWith engine base p = Except.error SweepError.configurationError := by
  constructor
  · rw [run_sweep, run_sweepWith, if_neg (not_le.mpr hsteps), if_pos (by rw [hvar])]
  · intro engine
    rw [run_sweepWith, if_neg (not_le.mpr hsteps), if_pos (by rw [hvar])]

/-- Witness for amended C7 at `x_var = z_var = "Volatility"`, `x_steps = 3`. -/
theorem same_variable_config_error_witness :
    run_sweep ⟨100, 100, 30, 5, 20, 0⟩ ⟨"Call Price", "Volatility", 10, 20, 3, "Volatility", 10, 5⟩
      = Except.error SweepError.configurationError ∧
    ∀ engine : BSInputs → BSResults,
      run_sweepWith engine ⟨100, 100, 30, 5, 20, 0⟩
          ⟨"Call Price", "Volatility", 10, 20, 3, "Volatility", 10, 5⟩
        = Except.error SweepError.configurationError :=
  same_variable_config_error ⟨100, 100, 30, 5, 20, 0⟩
    ⟨"Call Price", "Volatility", 10, 20, 3, "Volatility", 10, 5⟩ (by norm_num) rfl

/-- C8: a step count of at most one always fails with `InvalidRangeError`,
before any pricing evaluation — for every engine, with no engine call made. -/
theorem small_step_count_invalid_range (base : BSInputs) (p : SweepParams)
    (hsteps : p.x_steps ≤ 1) :
    run_sweep base p = Except.error SweepError.invalidRangeError ∧
    ∀ engine : BSInputs → BSResults,
      run_sweepWith engine base p = Except.error SweepError.invalidRangeError := by
  constructor
  · rw [run_sweep, run_sweepWith, if_pos hsteps]
  · intro engine
    rw [run_sweepWith, if_pos hsteps]

/-- Witness for C8 at `x_steps = 1`. -/
theorem small_step_count_invalid_range_witness :
    run_sweep ⟨100, 100, 30, 5, 20, 0⟩ ⟨"Call Price", "Spot Price", 10, 20, 1, "Volatility", 10, 5⟩
      = Except.error SweepError.invalidRangeError ∧
    ∀ engine : BSInputs → BSResults,
      run_sweepWith engine ⟨100, 100, 30, 5, 20, 0⟩
          ⟨"Call Price", "Spot Price", 10, 20, 1, "Volatility", 10, 5⟩
        = Except.error SweepError.invalidRangeError :=
  small_step_count_invalid_range ⟨100, 100, 30, 5, 20, 0⟩
    ⟨"Call Price", "Spot Price", 10, 20, 1, "Volatility", 10, 5⟩ (by norm_num)

/-- C9: metric extraction is total — the generic "Theta" and "Rho" labels
resolve to the call-side fields, and any label outside the eight known ones
extracts `0.0` instead of failing. -/
theorem metric_extraction_total :
    (∀ res : BSResults, extractMetric res (metricMap "Theta") = res.call_theta) ∧
    (∀ res : BSResults, extractMetric res (metricMap "Rho") = res.call_rho) ∧
    (∀ (res : BSResults) (s : String),
      s ∉ ["Call Price", "Put Price", "Call Delta", "Put Delta",
           "Gamma", "Vega", "Theta", "Rho"] →
      extractMetric res (metricMap s) = 0) := by
  refine ⟨fun res => ?_, fun res => ?_, fun res s hs => ?_⟩
  · simp [metricMap, extractMetric, resGet]
  · simp [metricMap, extractMetric, resGet]
  · simp only [List.mem_cons, List.not_mem_nil, or_false, not_or] at hs
    obtain ⟨h1, h2, h3, h4, h5, h6, h7, h8⟩ := hs
    simp only [metricMap]
    rw [if_neg h1, if_neg h2, if_neg h3, if_neg h4, if_neg h5, if_neg h6, if_neg h7, if_neg h8]
    rfl

/-- Witness for C9: an unrecognized label extracts `0.0`. -/
theorem metric_extraction_total_witness :
    extractMetric ⟨1, 2, 3, 4, 5, 6, 7, 8, 9, 10⟩ (metricMap "Banana") = 0 :=
  metric_extraction_total.2.2 ⟨1, 2, 3, 4, 5, 6, 7, 8, 9, 10⟩ "Banana" (by simp)
